import Mathlib

/-!
# Verification of the vibestream-backend real-time presence and fan-out layer

Shallow embedding of the socket layer of `src/server.js`:

* the in-memory presence directory `onlineUsers` (`{ username: socket.id }`,
  a plain JS object) is modelled as an association list with JS-object
  semantics (assignment replaces the value of an existing key in place,
  otherwise appends; `Object.keys` is insertion order);
* each socket event handler (`join`, `newPost`, `newLike`, `newComment`,
  `follow`, `chatMessage`, `disconnect`) is a pure function from the
  directory, the handling socket's id, the event payload, the current
  time and the outcomes of the durable writes it attempts, to the list of
  emissions it performs and the list of durable writes it attempts.

Durable writes (`Notification.create`, `Message.create`) are suspended
calls wrapped in `try/catch` in the source; their outcome is passed in as
an oracle (`Bool` for notification writes whose result is unused,
`Option MsgRecord` for `Message.create` whose result is used on success).
The handlers being total Lean functions reflects that the `catch` blocks
swallow every persistence failure.

Socket identifiers are `Nat`; usernames and payload fields are `String`,
with the empty string standing for a missing/empty (JS-falsy) field.
-/

namespace VibeStream

/-- The presence directory: `onlineUsers = { username: socket.id }`. -/
abbrev OnlineUsers := List (String × Nat)

/-- JS object property write `m[k] = v`: replaces the value of an existing
key in place, otherwise appends the new key (JS insertion order). -/
def objSet (m : OnlineUsers) (k : String) (v : Nat) : OnlineUsers :=
  if m.any (fun p => p.1 = k) then
    m.map (fun p => if p.1 = k then (k, v) else p)
  else
    m ++ [(k, v)]

/-- JS object property read `m[k]`, `undefined` when absent. -/
def objGet (m : OnlineUsers) (k : String) : Option Nat :=
  (m.find? (fun p => p.1 = k)).map (fun p => p.2)

/-- `Object.keys(m)` (insertion order). -/
def objKeys (m : OnlineUsers) : List String :=
  m.map (fun p => p.1)

/-- A chat message record as delivered to clients
(`{ fromUsername, toUsername, text, createdAt }`). -/
structure MsgRecord where
  fromUsername : String
  toUsername : String
  text : String
  createdAt : Nat
  deriving DecidableEq, Repr

/-- A notification payload
(`{ type, toUsername, fromUsername, postId?, message?, createdAt }`). -/
structure Notif where
  type : String
  toUsername : String
  fromUsername : String
  postId : Option String
  message : Option String
  createdAt : Nat
  deriving DecidableEq, Repr

/-- Payload of an outbound socket emission. -/
inductive Payload where
  /-- `onlineUsers` list broadcast. -/
  | onlineList (users : List String)
  /-- opaque `newPost` payload, rebroadcast verbatim. -/
  | post (p : String)
  /-- public `newLike` payload `{ postId, fromUsername }`. -/
  | likePublic (postId fromUsername : String)
  /-- public `newComment` payload `{ postId, fromUsername, text }`. -/
  | commentPublic (postId fromUsername text : String)
  /-- targeted `notification` payload. -/
  | notif (n : Notif)
  /-- `chatMessage` payload. -/
  | chat (m : MsgRecord)
  deriving DecidableEq, Repr

/-- Destination of an outbound emission. -/
inductive Dest where
  /-- `io.to(sid).emit(...)`: delivered to the one socket `sid`. -/
  | toSocket (sid : Nat)
  /-- `socket.emit(...)`: delivered to the handling socket `sid` itself. -/
  | selfSocket (sid : Nat)
  /-- `socket.broadcast.emit(...)`: every connected socket except `sid`. -/
  | broadcastExcept (sid : Nat)
  /-- `io.emit(...)`: every connected socket. -/
  | broadcastAll
  deriving DecidableEq, Repr

/-- One outbound emission: destination, event name, payload. -/
structure Emission where
  dest : Dest
  name : String
  payload : Payload
  deriving DecidableEq, Repr

/-- A durable write attempted via the Durable Record Writer. -/
inductive DbWrite where
  /-- `Notification.create({ user, type, fromUser, post?, message? })`. -/
  | notification (user type fromUser : String)
      (post : Option String) (message : Option String)
  /-- `Message.create({ fromUsername, toUsername, text })`. -/
  | message (fromUsername toUsername text : String)
  deriving DecidableEq, Repr

/-- `broadcastOnlineUsers()`: `io.emit('onlineUsers', Object.keys(onlineUsers))`. -/
def broadcastOnlineUsers (st : OnlineUsers) : Emission :=
  ⟨Dest.broadcastAll, "onlineUsers", Payload.onlineList (objKeys st)⟩

/-- The `join` handler: validates the username (`!username` — the
`typeof username !== 'string'` arm cannot fire in this typed embedding),
then `onlineUsers[username] = socket.id` and broadcasts the online set. -/
def join (st : OnlineUsers) (sid : Nat) (username : String) :
    OnlineUsers × List Emission :=
  if username = "" then (st, [])
  else
    let st' := objSet st username sid
    (st', [broadcastOnlineUsers st'])

/-- The `disconnect` handler: deletes every directory entry whose stored
socket id equals the disconnecting socket's id, then broadcasts. -/
def disconnect (st : OnlineUsers) (sid : Nat) :
    OnlineUsers × List Emission :=
  let st' := st.filter (fun p => p.2 ≠ sid)
  (st', [broadcastOnlineUsers st'])

/-- The `newPost` handler: `socket.broadcast.emit('newPost', post)`. -/
def newPost (sid : Nat) (post : String) : List Emission :=
  [⟨Dest.broadcastExcept sid, "newPost", Payload.post post⟩]

/-- The `newLike` handler. `wOk` is the outcome of the (caught)
`Notification.create` call; its result value is never used. -/
def newLike (st : OnlineUsers) (sid : Nat)
    (postId fromUsername toUsername : String) (now : Nat) (wOk : Bool) :
    List Emission × List DbWrite :=
  let notif : Notif :=
    ⟨"like", toUsername, fromUsername, some postId, none, now⟩
  let writes := [DbWrite.notification toUsername "like" fromUsername
    (some postId) none]
  let targeted := match objGet st toUsername with
    | some tid => [⟨Dest.toSocket tid, "notification", Payload.notif notif⟩]
    | none => []
  (targeted ++
    [⟨Dest.broadcastExcept sid, "newLike",
      Payload.likePublic postId fromUsername⟩], writes)

/-- The `newComment` handler. -/
def newComment (st : OnlineUsers) (sid : Nat)
    (postId fromUsername toUsername text : String) (now : Nat) (wOk : Bool) :
    List Emission × List DbWrite :=
  let notif : Notif :=
    ⟨"comment", toUsername, fromUsername, some postId, some text, now⟩
  let writes := [DbWrite.notification toUsername "comment" fromUsername
    (some postId) (some text)]
  let targeted := match objGet st toUsername with
    | some tid => [⟨Dest.toSocket tid, "notification", Payload.notif notif⟩]
    | none => []
  (targeted ++
    [⟨Dest.broadcastExcept sid, "newComment",
      Payload.commentPublic postId fromUsername text⟩], writes)

/-- The `follow` handler. -/
def follow (st : OnlineUsers) (sid : Nat)
    (fromUsername toUsername : String) (now : Nat) (wOk : Bool) :
    List Emission × List DbWrite :=
  let notif : Notif :=
    ⟨"follow", toUsername, fromUsername, none, none, now⟩
  let writes := [DbWrite.notification toUsername "follow" fromUsername
    none none]
  let targeted := match objGet st toUsername with
    | some tid => [⟨Dest.toSocket tid, "notification", Payload.notif notif⟩]
    | none => []
  (targeted, writes)

/-- The `chatMessage` handler. `msgRes` is the outcome of the (caught)
`Message.create` call: `some r` means the write succeeded and returned
record `r`; `none` means it threw and `savedMsg` keeps its locally
constructed fallback `{ fromUsername, toUsername, text, createdAt: now }`.
`notifOk` is the outcome of the subsequent `Notification.create`. -/
def chatMessage (st : OnlineUsers) (sid : Nat)
    (fromUsername toUsername text : String) (now : Nat)
    (msgRes : Option MsgRecord) (notifOk : Bool) :
    List Emission × List DbWrite :=
  if fromUsername = "" ∨ toUsername = "" ∨ text = "" then ([], [])
  else
    let savedMsg : MsgRecord := match msgRes with
      | some r => r
      | none => ⟨fromUsername, toUsername, text, now⟩
    let notif : Notif :=
      ⟨"message", toUsername, fromUsername, none, some text, now⟩
    let deliver := match objGet st toUsername with
      | some tid => [⟨Dest.toSocket tid, "chatMessage", Payload.chat savedMsg⟩]
      | none => []
    let echo : Emission := ⟨Dest.selfSocket sid, "chatMessage", Payload.chat savedMsg⟩
    let notifSend := match objGet st toUsername with
      | some tid => [⟨Dest.toSocket tid, "notification", Payload.notif notif⟩]
      | none => []
    (deliver ++ [echo] ++ notifSend,
     [DbWrite.message fromUsername toUsername text,
      DbWrite.notification toUsername "message" fromUsername none (some text)])

/-- Whether emission `e` is a direct (non-broadcast) send delivered to
socket `sid`: either `io.to(sid).emit` or the `socket.emit` of socket `sid`. -/
def sentTo (sid : Nat) (e : Emission) : Bool :=
  match e.dest with
  | Dest.toSocket t => t = sid
  | Dest.selfSocket t => t = sid
  | _ => false

/-- Whether emission `e` is a targeted send (`io.to(...)`), as opposed to a
sender echo (`socket.emit`) or a broadcast. -/
def isTargeted (e : Emission) : Bool :=
  match e.dest with
  | Dest.toSocket _ => true
  | _ => false

/-! ### Lemmas about the JS-object semantics of the presence directory -/

theorem objSet_cons_ne (a : String × Nat) (t : OnlineUsers) (k : String)
    (v : Nat) (h : a.1 ≠ k) : objSet (a :: t) k v = a :: objSet t k v := by
  by_cases ht : t.any (fun p => p.1 = k)
  · simp [objSet, h, ht]
  · simp [objSet, h, ht]

theorem objGet_cons_ne (a : String × Nat) (t : OnlineUsers) (k : String)
    (h : a.1 ≠ k) : objGet (a :: t) k = objGet t k := by
  simp [objGet, List.find?_cons, h]

theorem objGet_cons_eq (a : String × Nat) (t : OnlineUsers) (k : String)
    (h : a.1 = k) : objGet (a :: t) k = some a.2 := by
  simp [objGet, List.find?_cons, h]

theorem find_map_set (s : OnlineUsers) (k k' : String) (v : Nat)
    (h : ¬ k = k') :
    (s.map (fun p => if p.1 = k then (k, v) else p)).find?
        (fun p => p.1 = k')
      = s.find? (fun p => p.1 = k') := by
  induction s with
  | nil => rfl
  | cons b t ih =>
    by_cases hb : b.1 = k
    · have hbk2 : ¬ b.1 = k' := by rw [hb]; exact h
      simp [List.find?_cons, hb, h, hbk2, ih]
    · by_cases hb' : b.1 = k'
      · have hkk : ¬ k' = k := fun hh => h (hh.symm)
        simp [List.find?_cons, hb, hb', hkk]
      · simp [List.find?_cons, hb, hb', ih]

theorem objGet_objSet (m : OnlineUsers) (k k' : String) (v : Nat) :
    objGet (objSet m k v) k' = if k' = k then some v else objGet m k' := by
  induction m with
  | nil =>
    by_cases h : k' = k
    · subst h; simp [objSet, objGet]
    · have h2 : ¬ k = k' := fun hh => h hh.symm
      simp [objSet, objGet, h, h2]
  | cons a t ih =>
    by_cases ha : a.1 = k
    · have hany : ((a :: t).any fun p => p.1 = k) = true := by
        simp [List.any_cons, ha]
      have hset : objSet (a :: t) k v
          = (k, v) :: t.map (fun p => if p.1 = k then (k, v) else p) := by
        simp [objSet, hany, ha]
      by_cases h : k' = k
      · subst h
        rw [hset, if_pos rfl]
        exact objGet_cons_eq ⟨k', v⟩ _ k' rfl
      · have hk2 : ¬ k = k' := fun hh => h hh.symm
        rw [hset, if_neg h]
        rw [objGet_cons_ne ⟨k, v⟩ _ k' hk2]
        rw [objGet_cons_ne _ _ _ (ha ▸ hk2 : ¬ a.1 = k')]
        simp only [objGet]
        rw [find_map_set t k k' v hk2]
    · rw [objSet_cons_ne _ _ _ _ ha]
      by_cases h' : a.1 = k'
      · rw [objGet_cons_eq _ _ _ h', objGet_cons_eq _ _ _ h']
        have hkk : ¬ k' = k := fun hh => ha (h'.trans hh)
        rw [if_neg hkk]
      · rw [objGet_cons_ne _ _ _ h', objGet_cons_ne _ _ _ h', ih]

theorem objKeys_objSet_nodup (m : OnlineUsers) (k : String) (v : Nat)
    (h : (objKeys m).Nodup) : (objKeys (objSet m k v)).Nodup := by
  by_cases hm : m.any (fun p => p.1 = k)
  · have : objKeys (objSet m k v) = objKeys m := by
      simp only [objSet, hm, if_true, objKeys, List.map_map]
      apply List.map_congr_left
      intro p _
      by_cases hp : p.1 = k
      · simp [Function.comp, hp]
      · simp [Function.comp, hp]
    rw [this]; exact h
  · have hk : k ∉ objKeys m := by
      intro hk
      apply hm
      rw [List.any_eq_true]
      rcases List.mem_map.mp hk with ⟨p, hp, hpk⟩
      exact ⟨p, hp, by simp [hpk]⟩
    have : objKeys (objSet m k v) = objKeys m ++ [k] := by
      simp [objSet, hm, objKeys]
    rw [this]
    simp [List.nodup_append, h, hk]

theorem objKeys_filter_nodup (m : OnlineUsers) (q : String × Nat → Bool)
    (h : (objKeys m).Nodup) : (objKeys (m.filter q)).Nodup := by
  apply List.Nodup.sublist _ h
  exact List.Sublist.map _ (List.filter_sublist m)

theorem mem_objKeys_of_objGet (m : OnlineUsers) (k : String) (v : Nat)
    (h : objGet m k = some v) : k ∈ objKeys m := by
  unfold objGet at h
  obtain ⟨p, hp, hp2⟩ := Option.map_eq_some'.mp h
  have hpk := List.find?_some hp
  have hmem := List.mem_of_find?_eq_some hp
  exact List.mem_map.mpr ⟨p, hmem, by simpa using hpk⟩

theorem join_fst (st : OnlineUsers) (sid : Nat) (u : String) (hu : u ≠ "") :
    (join st sid u).1 = objSet st u sid := by
  simp [join, hu]

theorem disconnect_fst (st : OnlineUsers) (sid : Nat) :
    (disconnect st sid).1 = st.filter (fun p => p.2 ≠ sid) := rfl

theorem objGet_eq_none_iff (m : OnlineUsers) (k : String) :
    objGet m k = none ↔ ∀ p ∈ m, p.1 ≠ k := by
  simp [objGet, List.find?_eq_none]

theorem objGet_filter_ne (m : OnlineUsers) (c : Nat) (u : String)
    (h : (objKeys m).Nodup) :
    objGet (m.filter (fun p => p.2 ≠ c)) u
      = if objGet m u = some c then none else objGet m u := by
  induction m with
  | nil => simp [objGet]
  | cons a t ih =>
    have hnd : (objKeys t).Nodup := (List.nodup_cons.mp h).2
    have hnot : a.1 ∉ objKeys t := (List.nodup_cons.mp h).1
    by_cases hu : a.1 = u
    · have hget : objGet (a :: t) u = some a.2 := objGet_cons_eq _ _ _ hu
      have htnone : objGet t u = none := by
        rw [objGet_eq_none_iff]
        intro p hp hpk
        exact hnot (hu ▸ hpk ▸ List.mem_map.mpr ⟨p, hp, rfl⟩)
      have hfnone : objGet (t.filter (fun p => p.2 ≠ c)) u = none := by
        rw [objGet_eq_none_iff]
        intro p hp hpk
        exact (objGet_eq_none_iff t u).mp htnone p (List.mem_of_mem_filter hp) hpk
      by_cases hc : a.2 = c
      · have : (a :: t).filter (fun p => p.2 ≠ c) = t.filter (fun p => p.2 ≠ c) := by
          simp [List.filter_cons, hc]
        rw [this, hget, hfnone, hc]
        simp
      · have : (a :: t).filter (fun p => p.2 ≠ c) = a :: t.filter (fun p => p.2 ≠ c) := by
          simp [List.filter_cons, hc]
        rw [this, hget, objGet_cons_eq _ _ _ hu]
        have : ¬ ((some a.2 : Option Nat) = some c) := by simp [hc]
        simp [this]
    · by_cases hc : a.2 = c
      · have : (a :: t).filter (fun p => p.2 ≠ c) = t.filter (fun p => p.2 ≠ c) := by
          simp [List.filter_cons, hc]
        rw [this, objGet_cons_ne _ _ _ hu, ih hnd]
      · have : (a :: t).filter (fun p => p.2 ≠ c) = a :: t.filter (fun p => p.2 ≠ c) := by
          simp [List.filter_cons, hc]
        rw [this, objGet_cons_ne _ _ _ hu, objGet_cons_ne _ _ _ hu, ih hnd]


/-! ### Claims about the presence directory (C1, C6, C9) -/

/-- C1: disconnect of connection `c` removes exactly the presence entries
whose stored handle equals `c`. In particular, after `join(u, c)` then
`leave(c)` the identity `u` is absent; and if `u` re-joined on a newer
connection `c2 ≠ c` before `c`'s disconnect was processed, `leave(c)` does
not remove the newer entry, so `isOnline(u)` still returns `c2`. -/
theorem C1_disconnect_handle_equality (st : OnlineUsers) (u : String)
    (c c2 : Nat) (hu : u ≠ "") (hnd : (objKeys st).Nodup) :
    (objGet (disconnect st c).1 u
        = if objGet st u = some c then none else objGet st u)
    ∧ objGet (disconnect (join st c u).1 c).1 u = none
    ∧ (c ≠ c2 →
        objGet (disconnect (join (join st c u).1 c2 u).1 c).1 u = some c2) := by
  refine ⟨?_, ?_, ?_⟩
  · rw [disconnect_fst]
    exact objGet_filter_ne st c u hnd
  · rw [join_fst st c u hu, disconnect_fst]
    have hnd1 : (objKeys (objSet st u c)).Nodup := objKeys_objSet_nodup st u c hnd
    rw [objGet_filter_ne _ c u hnd1]
    rw [objGet_objSet st u u c]
    simp
  · intro hc
    rw [join_fst st c u hu, join_fst _ c2 u hu, disconnect_fst]
    have hnd2 : (objKeys (objSet (objSet st u c) u c2)).Nodup :=
      objKeys_objSet_nodup _ u c2 (objKeys_objSet_nodup st u c hnd)
    rw [objGet_filter_ne _ c u hnd2]
    rw [objGet_objSet _ u u c2]
    simp only [if_pos rfl]
    have hc2 : ¬ c2 = c := fun hh => hc hh.symm
    have : ¬ ((some c2 : Option Nat) = some c) := by
      simp [hc2]
    simp [this]

/-- Witness for C1 at concrete inputs. -/
theorem C1_witness :
    objGet (disconnect (join [("alice", 1)] 2 "bob").1 2).1 "bob" = none :=
  (C1_disconnect_handle_equality [("alice", 1)] "bob" 2 3 (by decide)
    (by decide)).2.1

/-- C6: a later `join` for the same identity replaces the stored connection
handle (`isOnline(u)` returns `c2` after `join(u, c1)` then `join(u, c2)`),
and the directory holds at most one entry per identity at all times: the
no-duplicate-keys invariant is preserved by both mutating operations
(`join` and `disconnect`). -/
theorem C6_last_join_wins (st : OnlineUsers) (u : String) (c1 c2 : Nat)
    (hu : u ≠ "") :
    objGet (join (join st c1 u).1 c2 u).1 u = some c2
    ∧ ((objKeys st).Nodup → (objKeys (join st c1 u).1).Nodup)
    ∧ ((objKeys st).Nodup → (objKeys (disconnect st c1).1).Nodup) := by
  refine ⟨?_, ?_, ?_⟩
  · rw [join_fst st c1 u hu, join_fst _ c2 u hu, objGet_objSet]
    simp
  · intro h
    rw [join_fst st c1 u hu]
    exact objKeys_objSet_nodup st u c1 h
  · intro h
    rw [disconnect_fst]
    exact objKeys_filter_nodup st _ h

/-- Witness for C6 at concrete inputs. -/
theorem C6_witness :
    objGet (join (join [] 1 "alice").1 2 "alice").1 "alice" = some 2 :=
  (C6_last_join_wins [] "alice" 1 2 (by decide)).1

/-- C9: one connection that joins under two different identities is
registered under both simultaneously — `isOnline` returns the same handle
for both and both appear in the broadcast online set — and its disconnect
removes every entry whose stored handle equals that connection. -/
theorem C9_multi_identity_connection (st : OnlineUsers) (u1 u2 : String)
    (c : Nat) (h1 : u1 ≠ "") (h2 : u2 ≠ "") (h12 : u1 ≠ u2)
    (hnd : (objKeys st).Nodup) :
    objGet (join (join st c u1).1 c u2).1 u1 = some c
    ∧ objGet (join (join st c u1).1 c u2).1 u2 = some c
    ∧ u1 ∈ objKeys (join (join st c u1).1 c u2).1
    ∧ u2 ∈ objKeys (join (join st c u1).1 c u2).1
    ∧ (∀ p ∈ (disconnect (join (join st c u1).1 c u2).1 c).1, p.2 ≠ c)
    ∧ objGet (disconnect (join (join st c u1).1 c u2).1 c).1 u1 = none
    ∧ objGet (disconnect (join (join st c u1).1 c u2).1 c).1 u2 = none := by
  rw [join_fst st c u1 h1, join_fst _ c u2 h2, disconnect_fst]
  have hg1 : objGet (objSet (objSet st u1 c) u2 c) u1 = some c := by
    rw [objGet_objSet, if_neg h12, objGet_objSet, if_pos rfl]
  have hg2 : objGet (objSet (objSet st u1 c) u2 c) u2 = some c := by
    rw [objGet_objSet, if_pos rfl]
  have hnd2 : (objKeys (objSet (objSet st u1 c) u2 c)).Nodup :=
    objKeys_objSet_nodup _ u2 c (objKeys_objSet_nodup st u1 c hnd)
  refine ⟨hg1, hg2, mem_objKeys_of_objGet _ u1 c hg1,
    mem_objKeys_of_objGet _ u2 c hg2, ?_, ?_, ?_⟩
  · intro p hp
    have := List.of_mem_filter hp
    simpa using this
  · rw [objGet_filter_ne _ c u1 hnd2, hg1]
    simp
  · rw [objGet_filter_ne _ c u2 hnd2, hg2]
    simp

/-- Witness for C9 at concrete inputs. -/
theorem C9_witness :
    objGet (disconnect (join (join [] 5 "alice").1 5 "bob").1 5).1 "bob"
      = none :=
  (C9_multi_identity_connection [] "alice" "bob" 5 (by decide) (by decide)
    (by decide) (by decide)).2.2.2.2.2.2


/-! ### Claims about the event fan-out engine (C2, C3, C4, C5, C7, C8, C10) -/

/-- C2: a failure of the durable write inside the `newLike`, `newComment`,
`follow` or `chatMessage` handlers is caught in the handler (each handler
is a total function of the write-outcome oracle, embedding the
`try/catch`) and the targeted delivery and broadcast steps still execute
exactly as on success: the three notification handlers produce identical
emissions and write attempts for every write outcome, and `chatMessage`
produces the same sequence of destinations and event names and the same
write attempts whether `Message.create` failed or succeeded. -/
theorem C2_persistence_failure_isolated (st : OnlineUsers) (sid : Nat)
    (pid f t x : String) (now : Nat) (r : MsgRecord)
    (b1 b2 : Bool) (res : Option MsgRecord) :
    newLike st sid pid f t now b1 = newLike st sid pid f t now b2
    ∧ newComment st sid pid f t x now b1 = newComment st sid pid f t x now b2
    ∧ follow st sid f t now b1 = follow st sid f t now b2
    ∧ (chatMessage st sid f t x now res b1).1.map (fun e => (e.dest, e.name))
        = (chatMessage st sid f t x now (some r) b2).1.map
            (fun e => (e.dest, e.name))
    ∧ (chatMessage st sid f t x now res b1).2
        = (chatMessage st sid f t x now (some r) b2).2 := by
  refine ⟨rfl, rfl, rfl, ?_, ?_⟩
  · by_cases hv : f = "" ∨ t = "" ∨ x = ""
    · simp [chatMessage, hv]
    · simp only [chatMessage, if_neg hv]
      rcases hg : objGet st t with _ | tid <;> cases res <;> simp [hg]
  · by_cases hv : f = "" ∨ t = "" ∨ x = ""
    · simp [chatMessage, hv]
    · cases res <;> simp [chatMessage, hv]

/-- C3 counterexample: the claim says every handler validates its identity
fields and silently drops the event when one is empty, with no persistence
write and no emission; but the `newLike` handler performs no validation:
with an empty `fromUsername` it still attempts the `Notification.create`
write and still emits the public broadcast. -/
theorem C3_counterexample :
    (newLike [] 0 "p1" "" "bob" 0 true).2
        = [DbWrite.notification "bob" "like" "" (some "p1") none]
    ∧ (newLike [] 0 "p1" "" "bob" 0 true).1
        = [⟨Dest.broadcastExcept 0, "newLike", Payload.likePublic "p1" ""⟩] := by
  constructor <;> rfl

/-- C3 amended: only the `join` and `chatMessage` handlers validate their
required fields and silently drop the event (no write, no emission, no
state change) when one is missing or empty; the `newLike`, `newComment`
and `follow` handlers perform no validation and, even with empty identity
fields, attempt their single persistence write and (for like/comment)
emit their public broadcast. -/
theorem C3_amended_validation (st : OnlineUsers) (sid : Nat)
    (pid f t x : String) (now : Nat) (b : Bool) (res : Option MsgRecord) :
    join st sid "" = (st, [])
    ∧ ((f = "" ∨ t = "" ∨ x = "") →
        chatMessage st sid f t x now res b = ([], []))
    ∧ (newLike st sid pid "" "" now b).2.length = 1
    ∧ ⟨Dest.broadcastExcept sid, "newLike", Payload.likePublic pid ""⟩
        ∈ (newLike st sid pid "" "" now b).1
    ∧ (newComment st sid pid "" "" "" now b).2.length = 1
    ∧ ⟨Dest.broadcastExcept sid, "newComment",
          Payload.commentPublic pid "" ""⟩
        ∈ (newComment st sid pid "" "" "" now b).1
    ∧ (follow st sid "" "" now b).2.length = 1 := by
  refine ⟨rfl, ?_, rfl, ?_, rfl, ?_, rfl⟩
  · intro hv
    simp [chatMessage, hv]
  · rcases hg : objGet st "" with _ | tid <;> simp [newLike, hg]
  · rcases hg : objGet st "" with _ | tid <;> simp [newComment, hg]

/-- Witness for C3's amended claim at concrete inputs. -/
theorem C3_amended_witness :
    chatMessage [] 0 "" "bob" "hi" 0 none true = ([], []) :=
  (C3_amended_validation [] 0 "p" "" "bob" "hi" 0 true none).2.1 (Or.inl rfl)

/-- C4 counterexample: the claim says an event targeting an identity with
no presence entry attempts exactly one persistence write; but a valid
`chatMessage` to an offline recipient attempts two writes (the message
record and the notification record), while indeed performing zero
targeted sends. -/
theorem C4_counterexample :
    (chatMessage [] 0 "alice" "bob" "hi" 5 none true).1.countP isTargeted = 0
    ∧ (chatMessage [] 0 "alice" "bob" "hi" 5 none true).2.length = 2
    ∧ ¬ (chatMessage [] 0 "alice" "bob" "hi" 5 none true).2.length = 1 := by
  refine ⟨rfl, rfl, by decide⟩

/-- C4 amended: for an event whose target identity has no entry in the
presence directory, the handler performs zero targeted (`io.to`) sends;
`newLike`, `newComment` and `follow` attempt exactly one persistence
write, while `chatMessage` attempts exactly two (the message record and
the notification record). -/
theorem C4_amended_offline_target (st : OnlineUsers) (sid : Nat)
    (pid f t x : String) (now : Nat) (b : Bool) (res : Option MsgRecord)
    (hoff : objGet st t = none) (hf : f ≠ "") (ht : t ≠ "") (hx : x ≠ "") :
    ((newLike st sid pid f t now b).1.countP isTargeted = 0
      ∧ (newLike st sid pid f t now b).2.length = 1)
    ∧ ((newComment st sid pid f t x now b).1.countP isTargeted = 0
      ∧ (newComment st sid pid f t x now b).2.length = 1)
    ∧ ((follow st sid f t now b).1 = []
      ∧ (follow st sid f t now b).2.length = 1)
    ∧ ((chatMessage st sid f t x now res b).1.countP isTargeted = 0
      ∧ (chatMessage st sid f t x now res b).2.length = 2) := by
  have hv : ¬ (f = "" ∨ t = "" ∨ x = "") := by simp [hf, ht, hx]
  refine ⟨⟨?_, rfl⟩, ⟨?_, rfl⟩, ⟨?_, rfl⟩, ⟨?_, ?_⟩⟩
  · simp [newLike, hoff, isTargeted]
  · simp [newComment, hoff, isTargeted]
  · simp [follow, hoff]
  · simp [chatMessage, hv, hoff, isTargeted]
  · simp [chatMessage, hv]

/-- Witness for C4's amended claim at concrete inputs. -/
theorem C4_amended_witness :
    (follow [] 0 "alice" "bob" 3 true).1 = [] :=
  (C4_amended_offline_target [] 0 "p" "alice" "bob" "hi" 3 true none rfl
    (by decide) (by decide) (by decide)).2.2.1.1

/-- C5: a `chatMessage` event with all three fields present emits exactly
one echo (`socket.emit`) of a `chatMessage` event to the sender's own
connection, for every outcome of the `Message.create` write. -/
theorem C5_chat_echo_once (st : OnlineUsers) (sid : Nat) (f t x : String)
    (now : Nat) (msgRes : Option MsgRecord) (ok : Bool)
    (hf : f ≠ "") (ht : t ≠ "") (hx : x ≠ "") :
    (chatMessage st sid f t x now msgRes ok).1.countP
        (fun e => decide (e.dest = Dest.selfSocket sid
          ∧ e.name = "chatMessage")) = 1 := by
  have hv : ¬ (f = "" ∨ t = "" ∨ x = "") := by simp [hf, ht, hx]
  simp only [chatMessage, if_neg hv]
  rcases hg : objGet st t with _ | tid <;>
    simp [hg, List.countP_cons, List.countP_append]

/-- Witness for C5 at concrete inputs. -/
theorem C5_witness :
    (chatMessage [] 1 "alice" "bob" "hi" 7 none true).1.countP
        (fun e => decide (e.dest = Dest.selfSocket 1
          ∧ e.name = "chatMessage")) = 1 :=
  C5_chat_echo_once [] 1 "alice" "bob" "hi" 7 none true (by decide)
    (by decide) (by decide)

/-- C7: `newPost`, `newLike` and `newComment` broadcast a reduced public
payload (`newPost`: the payload; `newLike`: postId and fromUsername;
`newComment`: postId, fromUsername and text) to every connection except
the originator's, and every targeted `notification` emission of the like
and comment handlers goes only to the single connection registered for
the recipient identity, never as a broadcast. -/
theorem C7_broadcast_reduced_targeted_single (st : OnlineUsers) (sid : Nat)
    (pid f t x p : String) (now : Nat) (b : Bool) :
    newPost sid p = [⟨Dest.broadcastExcept sid, "newPost", Payload.post p⟩]
    ∧ (newLike st sid pid f t now b).1.filter (fun e => e.name == "newLike")
        = [⟨Dest.broadcastExcept sid, "newLike", Payload.likePublic pid f⟩]
    ∧ (newComment st sid pid f t x now b).1.filter
          (fun e => e.name == "newComment")
        = [⟨Dest.broadcastExcept sid, "newComment",
            Payload.commentPublic pid f x⟩]
    ∧ (∀ e ∈ (newLike st sid pid f t now b).1, e.name = "notification" →
        ∃ tid, objGet st t = some tid ∧ e.dest = Dest.toSocket tid)
    ∧ (∀ e ∈ (newComment st sid pid f t x now b).1,
        e.name = "notification" →
          ∃ tid, objGet st t = some tid ∧ e.dest = Dest.toSocket tid) := by
  refine ⟨rfl, ?_, ?_, ?_, ?_⟩
  · rcases hg : objGet st t with _ | tid <;> simp [newLike, hg]
  · rcases hg : objGet st t with _ | tid <;> simp [newComment, hg]
  · intro e he hn
    rcases hg : objGet st t with _ | tid
    · simp only [newLike, hg] at he
      simp at he
      subst he
      simp at hn
    · simp only [newLike, hg] at he
      simp at he
      rcases he with he | he
      · subst he
        exact ⟨tid, rfl, rfl⟩
      · subst he
        simp at hn
  · intro e he hn
    rcases hg : objGet st t with _ | tid
    · simp only [newComment, hg] at he
      simp at he
      subst he
      simp at hn
    · simp only [newComment, hg] at he
      simp at he
      rcases he with he | he
      · subst he
        exact ⟨tid, rfl, rfl⟩
      · subst he
        simp at hn

/-- Witness for C7 at concrete inputs. -/
theorem C7_witness :
    (newLike [("bob", 2)] 0 "p1" "alice" "bob" 3 true).1.filter
        (fun e => e.name == "newLike")
      = [⟨Dest.broadcastExcept 0, "newLike", Payload.likePublic "p1" "alice"⟩] :=
  (C7_broadcast_reduced_targeted_single [("bob", 2)] 0 "p1" "alice" "bob"
    "x" "pp" 3 true).2.1

/-- C8: when `Message.create` succeeds with record `r`, every `chatMessage`
emission (targeted delivery and echo) carries `r`, the stored record; when
it fails, every `chatMessage` emission carries the locally constructed
fallback `{ fromUsername, toUsername, text, createdAt := now }` — so the
delivered and stored representations can diverge only in the failure
case. -/
theorem C8_delivered_vs_stored (st : OnlineUsers) (sid : Nat)
    (f t x : String) (now : Nat) (r : MsgRecord) (ok : Bool) :
    (∀ e ∈ (chatMessage st sid f t x now (some r) ok).1,
        e.name = "chatMessage" → e.payload = Payload.chat r)
    ∧ (∀ e ∈ (chatMessage st sid f t x now none ok).1,
        e.name = "chatMessage" →
          e.payload = Payload.chat ⟨f, t, x, now⟩) := by
  constructor <;>
  · intro e he hn
    by_cases hv : f = "" ∨ t = "" ∨ x = ""
    · simp [chatMessage, hv] at he
    · simp only [chatMessage, if_neg hv] at he
      rcases hg : objGet st t with _ | tid <;> rw [hg] at he <;> simp at he
      · subst he; rfl
      · rcases he with he | he | he <;> subst he <;> simp_all

/-- Witness for C8 at concrete inputs. -/
theorem C8_witness :
    (Emission.mk (Dest.selfSocket 1) "chatMessage"
        (Payload.chat ⟨"alice", "bob", "hi", 7⟩)).payload
      = Payload.chat ⟨"alice", "bob", "hi", 7⟩ :=
  (C8_delivered_vs_stored [] 1 "alice" "bob" "hi" 7
      ⟨"alice", "bob", "hi", 7⟩ true).2
    ⟨Dest.selfSocket 1, "chatMessage", Payload.chat ⟨"alice", "bob", "hi", 7⟩⟩
    (by simp [chatMessage]) rfl

/-- C10: a `chatMessage` whose sender and recipient are the same identity,
registered in the directory with the sending connection, makes that
connection receive two `chatMessage` events (targeted delivery plus echo,
with identical record payloads) and exactly one `notification` event of
type `"message"`. -/
theorem C10_self_chat (st : OnlineUsers) (sid : Nat) (u x : String)
    (now : Nat) (msgRes : Option MsgRecord) (ok : Bool)
    (hu : u ≠ "") (hx : x ≠ "") (hreg : objGet st u = some sid) :
    (chatMessage st sid u u x now msgRes ok).1.countP
        (fun e => sentTo sid e && (e.name == "chatMessage")) = 2
    ∧ (chatMessage st sid u u x now msgRes ok).1.countP
        (fun e => sentTo sid e && (e.name == "notification")) = 1
    ∧ (∀ e1 ∈ (chatMessage st sid u u x now msgRes ok).1,
        ∀ e2 ∈ (chatMessage st sid u u x now msgRes ok).1,
        e1.name = "chatMessage" → e2.name = "chatMessage" →
          e1.payload = e2.payload)
    ∧ (∀ e ∈ (chatMessage st sid u u x now msgRes ok).1,
        e.name = "notification" →
          e.payload = Payload.notif ⟨"message", u, u, none, some x, now⟩) := by
  have hv : ¬ (u = "" ∨ u = "" ∨ x = "") := by simp [hu, hx]
  simp only [chatMessage, if_neg hv, hreg]
  refine ⟨?_, ?_, ?_, ?_⟩
  · simp [sentTo, List.countP_cons]
  · simp [sentTo, List.countP_cons]
  · intro e1 he1 e2 he2 h1 h2
    simp at he1 he2
    rcases he1 with he1 | he1 | he1 <;> rcases he2 with he2 | he2 | he2 <;>
      subst he1 <;> subst he2 <;> simp_all
  · intro e he hn
    simp at he
    rcases he with he | he | he <;> subst he <;> simp_all

/-- Witness for C10 at concrete inputs. -/
theorem C10_witness :
    (chatMessage [("alice", 0)] 0 "alice" "alice" "hi" 3 none true).1.countP
        (fun e => sentTo 0 e && (e.name == "chatMessage")) = 2 :=
  (C10_self_chat [("alice", 0)] 0 "alice" "hi" 3 none true (by decide)
    (by decide) rfl).1

end VibeStream
